import Mathlib

/-!
Verification of the session coordinator in create-simli-app-elevenlabs
(src/app/SimliElevenlabs.tsx, the WebSocket-based implementation).

The development shallowly embeds the coordinator: JSON frames become an
inductive value type, the socket becomes a record of its ready state and
the list of frames it was asked to transmit, and each event handler of
the source becomes a pure function on an explicit coordinator state.
JavaScript exceptions (JSON.parse on bad input, member access on
null/undefined) are modelled with Except.
-/

/-- A JSON value, as produced by JSON.parse and consumed by
JSON.stringify in the source. Numbers are restricted to naturals, which
covers every field the wire protocol uses (event ids and millisecond
delays). -/
inductive JsonValue where
  | jnull : JsonValue
  | jbool : Bool → JsonValue
  | jnum : Nat → JsonValue
  | jstr : String → JsonValue
  | jarr : List JsonValue → JsonValue
  | jobj : List (String × JsonValue) → JsonValue

/-- Field lookup in a JSON object field list (JavaScript member access on
an object value). -/
def jlookupF (fs : List (String × JsonValue)) (key : String) : Option JsonValue :=
  (fs.find? (fun p => p.1 = key)).map (fun p => p.2)

/-- Member access `j.key` on a parsed JSON value: yields the field for
objects, nothing (undefined) for primitives and arrays. -/
def jlookup (key : String) : JsonValue → Option JsonValue
  | .jobj fs => jlookupF fs key
  | _ => none

/-- Number of fields of a JSON object (0 for non-objects); used to
compare message shapes. -/
def jFieldCount : JsonValue → Nat
  | .jobj fs => fs.length
  | _ => 0

/-- Exceptions the source handlers can raise: JSON.parse on unparseable
text, and TypeError from member access on null/undefined (plus atob on a
non-string payload). -/
inductive JsError where
  | parseError : JsError
  | typeError : JsError
deriving DecidableEq

/-- WebSocket ready states (WebSocket.CONNECTING / OPEN / CLOSING /
CLOSED); `opened` is the OPEN constant. -/
inductive ReadyState where
  | connecting : ReadyState
  | opened : ReadyState
  | closing : ReadyState
  | closed : ReadyState
deriving DecidableEq

/-- A WebSocket, observed through its ready state and the list of JSON
frames handed to its send method. -/
structure Socket where
  readyState : ReadyState
  sent : List JsonValue

/-- `ws.send(JSON.stringify(msg))`: the frame is appended to the
transmit log unconditionally. -/
def Socket.sendRaw (ws : Socket) (msg : JsonValue) : Socket :=
  { ws with sent := ws.sent ++ [msg] }

/-- sendMessage (SimliElevenlabs.tsx lines 294-298): send only when the
socket ready state is OPEN, otherwise do nothing. -/
def sendMessage (ws : Socket) (msg : JsonValue) : Socket :=
  if ws.readyState = ReadyState.opened then ws.sendRaw msg else ws

/-- sendAudioToWebSocket (lines 281-289): guarded by
`websocketRef.current?.readyState === WebSocket.OPEN`; wraps the base64
audio text as a user_audio_chunk object. A null ref or a non-OPEN state
makes the whole call a no-op. -/
def sendAudioToWebSocket (wsOpt : Option Socket) (audioData : String) : Option Socket :=
  match wsOpt with
  | some ws =>
      if ws.readyState = ReadyState.opened
      then some (ws.sendRaw (.jobj [("user_audio_chunk", .jstr audioData)]))
      else some ws
  | none => none

/-- Value of a base64 alphabet character (the table atob uses); none for
characters outside the alphabet. -/
def b64CharVal (c : Char) : Option Nat :=
  if 'A' ≤ c ∧ c ≤ 'Z' then some (c.toNat - 65)
  else if 'a' ≤ c ∧ c ≤ 'z' then some (c.toNat - 97 + 26)
  else if '0' ≤ c ∧ c ≤ '9' then some (c.toNat - 48 + 52)
  else if c = '+' then some 62
  else if c = '/' then some 63
  else none

/-- Reassemble bytes from a list of 6-bit values, as atob does: each
full group of four values gives three bytes, a trailing group of two or
three values gives one or two bytes. -/
def b64DecodeVals : List Nat → List Nat
  | a :: b :: c :: d :: rest =>
      (a * 4 + b / 16) :: ((b % 16) * 16 + c / 4) :: ((c % 4) * 64 + d) :: b64DecodeVals rest
  | [a, b, c] => [a * 4 + b / 16, (b % 16) * 16 + c / 4]
  | [a, b] => [a * 4 + b / 16]
  | _ => []

/-- base64ToUint8Array (lines 268-276): atob followed by a charCodeAt
loop, i.e. base64 decoding to a byte list. Padding characters are
stripped first; on valid base64 input this computes exactly what the
source computes. -/
def base64ToUint8Array (base64 : String) : List Nat :=
  b64DecodeVals ((base64.data.filter (fun c => c ≠ '=')).filterMap b64CharVal)

/-- The base64 alphabet in order, for encoding. -/
def b64Chars : List Char :=
  "ABCDEFGHIJKLMNOPQRSTUVWXYZabcdefghijklmnopqrstuvwxyz0123456789+/".data

/-- Character for a 6-bit value. -/
def b64CharOfVal (n : Nat) : Char := b64Chars.getD n 'A'

/-- Standard base64 encoding of a byte list, with padding; models the
FileReader readAsDataURL path of the capture handler, which yields the
base64 text of the chunk bytes. -/
def base64EncodeGroups : List Nat → List Char
  | a :: b :: c :: rest =>
      b64CharOfVal (a / 4) :: b64CharOfVal ((a % 4) * 16 + b / 16) ::
      b64CharOfVal ((b % 16) * 4 + c / 64) :: b64CharOfVal (c % 64) :: base64EncodeGroups rest
  | [a, b] => [b64CharOfVal (a / 4), b64CharOfVal ((a % 4) * 16 + b / 16), b64CharOfVal ((b % 16) * 4), '=']
  | [a] => [b64CharOfVal (a / 4), b64CharOfVal ((a % 4) * 16), '=', '=']
  | [] => []

/-- Base64 text of a byte list. -/
def base64Encode (bytes : List Nat) : String :=
  String.mk (base64EncodeGroups bytes)

/-- The observable output of one run of the websocket message handler
(lines 393-443): the pong replies it schedules, as pairs of a
millisecond delay and the message passed to the delayed sendMessage
call, and the byte sequences passed to simliClient.sendAudioData. The
handler writes no component state, so nothing else is observable. -/
structure HandlerOut where
  scheduled : List (Nat × JsonValue)
  rendererCalls : List (List Nat)

/-- Reading `data.type` on the parsed value: throws TypeError on null,
yields the string tag for an object whose type field is a string, and
undefined (none) otherwise. -/
def getTypeField : JsonValue → Except JsError (Option String)
  | .jnull => .error .typeError
  | .jobj fs =>
      .ok (match jlookupF fs "type" with
        | some (.jstr s) => some s
        | _ => none)
  | _ => .ok none

/-- The pong message built at lines 399-402:
JSON.stringify drops a field whose value is undefined, so the event_id
field is present exactly when `data.ping_event.event_id` was. -/
def pongMessage (eid : Option JsonValue) : JsonValue :=
  .jobj (("type", JsonValue.jstr "pong") ::
    (match eid with
     | some v => [("event_id", v)]
     | none => []))

/-- The ping branch (lines 397-404): reads data.ping_event (TypeError
when the field is null or absent), then schedules one pong carrying the
same event id after `ping_ms || 0` milliseconds (0 when ping_ms is
absent or not a number). -/
def handlePing (j : JsonValue) : Except JsError HandlerOut :=
  match jlookup "ping_event" j with
  | some .jnull => .error .typeError
  | some pe =>
      let delay := match jlookup "ping_ms" pe with
        | some (.jnum m) => m
        | _ => 0
      .ok ⟨[(delay, pongMessage (jlookup "event_id" pe))], []⟩
  | none => .error .typeError

/-- The user_transcript branch (lines 407-412): reads
data.user_transcription_event.user_transcript for a console log only;
TypeError when the event field is null or absent, no action otherwise. -/
def handleTranscript (j : JsonValue) : Except JsError HandlerOut :=
  match jlookup "user_transcription_event" j with
  | some .jnull => .error .typeError
  | some _ => .ok ⟨[], []⟩
  | none => .error .typeError

/-- The agent_response branch (lines 415-420): a console log only. -/
def handleAgentResponse (j : JsonValue) : Except JsError HandlerOut :=
  match jlookup "agent_response_event" j with
  | some .jnull => .error .typeError
  | some _ => .ok ⟨[], []⟩
  | none => .error .typeError

/-- The audio branch (lines 423-434): reads
data.audio_event.audio_base_64, decodes it with base64ToUint8Array and
makes one simliClient.sendAudioData call with the decoded bytes (the
simliClient guard is always satisfied: the client is a module-level
constant). A missing or non-string payload raises (member access on
null/undefined, or atob on a value whose string coercion is not valid
base64). -/
def handleAudio (j : JsonValue) : Except JsError HandlerOut :=
  match jlookup "audio_event" j with
  | some .jnull => .error .typeError
  | some ae =>
      match jlookup "audio_base_64" ae with
      | some (.jstr b) => .ok ⟨[], [base64ToUint8Array b]⟩
      | _ => .error .typeError
  | none => .error .typeError

/-- The interruption branch (lines 437-442): a console log only. -/
def handleInterruption (j : JsonValue) : Except JsError HandlerOut :=
  match jlookup "interruption_event" j with
  | some .jnull => .error .typeError
  | some _ => .ok ⟨[], []⟩
  | none => .error .typeError

/-- The body of websocket.onmessage after JSON.parse succeeded: the
source is a sequence of independent if statements on data.type, but the
compared tags are pairwise distinct, so at most one branch runs and the
chain is equivalent to this cascade. A tag equal to none of the five
known strings reaches no branch and produces no action. -/
def handleData (j : JsonValue) : Except JsError HandlerOut :=
  match getTypeField j with
  | .error e => .error e
  | .ok t =>
      if t = some "ping" then handlePing j
      else if t = some "user_transcript" then handleTranscript j
      else if t = some "agent_response" then handleAgentResponse j
      else if t = some "audio" then handleAudio j
      else if t = some "interruption" then handleInterruption j
      else .ok ⟨[], []⟩

/-- websocket.onmessage (lines 393-443). The argument is the result of
attempting JSON.parse on the frame text: none when the text is not
valid JSON, in which case JSON.parse throws and, there being no
try/catch in the handler, the exception escapes the handler. -/
def websocketOnmessage : Option JsonValue → Except JsError HandlerOut
  | none => .error .parseError
  | some j => handleData j

/-- The five tags of the ElevenLabsWebSocketEvent union type (lines
215-223), i.e. every tag the onmessage dispatch tests for. -/
def knownTags : List String :=
  ["ping", "user_transcript", "agent_response", "audio", "interruption"]

/-- A parsed frame whose member access `data.type` does not throw and
whose tag is not one of the known variants (including objects with no
string type field, and primitive or array values). -/
def hasUnknownTag (j : JsonValue) : Bool :=
  match getTypeField j with
  | .ok (some t) => ! knownTags.contains t
  | .ok none => true
  | .error _ => false

/-- The getUserMedia audio constraint object built at lines 305-312. -/
structure AudioConstraints where
  sampleRate : Nat
  channelCount : Nat
  echoCancellation : Bool
  noiseSuppression : Bool
deriving DecidableEq

/-- MediaRecorder states. -/
inductive RecState where
  | inactive : RecState
  | recording : RecState
  | paused : RecState
deriving DecidableEq

/-- The mutable state of one coordinator instance: the React state
variables isLoading, error and isAvatarVisible, the refs holding the
socket, the MediaRecorder state and the capture stream (as its number
of live tracks), and the module-level SimliClient observed through
whether its session is open and its queued audio buffer. micRequests
logs every getUserMedia constraint object requested, so that theorems
can observe whether and how microphone access was asked for. -/
structure CoordState where
  isLoading : Bool
  isAvatarVisible : Bool
  error : String
  websocket : Option Socket
  mediaRecorder : Option RecState
  stream : Option Nat
  simliOpen : Bool
  simliBuffer : List (List Nat)
  micRequests : List AudioConstraints

/-- The component before any interaction: no error, nothing loading, no
socket, no recorder, no stream, renderer session closed. -/
def initialState : CoordState :=
  ⟨false, false, "", none, none, none, false, [], []⟩

/-- The constraint object of setupMicrophoneRecording (lines 305-312):
sampleRate 16000, channelCount 1, echoCancellation and noiseSuppression
true. -/
def micConstraints : AudioConstraints := ⟨16000, 1, true, true⟩

/-- setupMicrophoneRecording, success path (lines 303-344): requests
getUserMedia with micConstraints, stores the stream in streamRef,
creates a MediaRecorder on it and starts it with 100 ms chunking. -/
def setupMicrophoneRecording (s : CoordState) : CoordState :=
  { s with micRequests := s.micRequests ++ [micConstraints],
           stream := some 1,
           mediaRecorder := some RecState.recording }

/-- stopMicrophoneRecording (lines 349-363): stop the recorder when it
exists and is not inactive, stop every track of the stream and null the
stream ref when it exists, then null the recorder ref unconditionally. -/
def stopMicrophoneRecording (s : CoordState) : CoordState :=
  let s1 :=
    match s.mediaRecorder with
    | some r =>
        if r = RecState.inactive then s
        else { s with mediaRecorder := some RecState.inactive }
    | none => s
  let s2 :=
    match s1.stream with
    | some _ => { s1 with stream := none }
    | none => s1
  { s2 with mediaRecorder := none }

/-- The conversation initiation message the source sends on open (lines
385-387): an object with the single field type set to
conversation_initiation_client_data. -/
def initMessage : JsonValue :=
  .jobj [("type", .jstr "conversation_initiation_client_data")]

/-- The initiation message shape the specification prescribes: type plus
a nested conversation_initiation_client_data object holding an empty
custom_llm_extra_body object. Stated from the specification for
comparison with initMessage, which is what the source builds. -/
def specInitMessage : JsonValue :=
  .jobj [("type", .jstr "conversation_initiation_client_data"),
         ("conversation_initiation_client_data",
           .jobj [("custom_llm_extra_body", .jobj [])])]

/-- websocket.onopen (lines 381-391): sendMessage of the initiation
message on the socket just opened, then setIsAvatarVisible(true) and
setIsLoading(false). It touches nothing else: in particular it makes no
getUserMedia request and starts no recorder. -/
def websocketOnopen (s : CoordState) : CoordState :=
  match s.websocket with
  | some ws =>
      { s with websocket := some (sendMessage ws initMessage),
               isAvatarVisible := true,
               isLoading := false }
  | none => s

/-- handleStop (lines 506-527): clear the loading flag, the error and
the avatar visibility, close and null the socket ref when present, stop
the microphone, then ClearBuffer and close on the Simli client. -/
def handleStop (s : CoordState) : CoordState :=
  let s1 := { s with isLoading := false, error := "", isAvatarVisible := false }
  let s2 :=
    match s1.websocket with
    | some _ => { s1 with websocket := none }
    | none => s1
  let s3 := stopMicrophoneRecording s2
  { s3 with simliBuffer := [], simliOpen := false }

/-- websocket.onclose (lines 445-451): setIsAvatarVisible(false),
stopMicrophoneRecording, handleStop, then null the socket ref. -/
def websocketOnclose (s : CoordState) : CoordState :=
  let s1 := { s with isAvatarVisible := false }
  let s2 := stopMicrophoneRecording s1
  let s3 := handleStop s2
  { s3 with websocket := none }

/-- websocket.onerror (lines 453-457): record the fixed user-visible
error string and clear the loading flag; nothing else is touched. -/
def websocketOnerror (s : CoordState) : CoordState :=
  { s with error := "WebSocket connection failed", isLoading := false }

/-- The catch block of connectToElevenLabs (lines 458-462), reached for
example when the signed-URL fetch rejects: record the user-visible
error string and clear the loading flag; nothing else is touched. -/
def connectCatch (e : String) (s : CoordState) : CoordState :=
  { s with error := "Failed to connect: " ++ e, isLoading := false }

/-- The catch block of handleStart (lines 496-500), reached when
simliClient.start() rejects: record the user-visible error string and
clear the loading flag; nothing else is touched. -/
def handleStartCatch (e : String) (s : CoordState) : CoordState :=
  { s with error := "Error starting interaction: " ++ e, isLoading := false }

/-- The success path of connectToElevenLabs up to socket creation
(lines 374-379): the signed URL is fetched and a fresh connecting
socket is stored in the ref. No getUserMedia request happens on this
path: the setupMicrophoneRecording call at line 371 is commented out. -/
def connectToElevenLabsSuccess (s : CoordState) : CoordState :=
  { s with websocket := some ⟨ReadyState.connecting, []⟩ }

/-- simliClient.start() succeeding during handleStart (line 495): the
renderer session opens. -/
def simliStart (s : CoordState) : CoordState :=
  { s with simliOpen := true }

/-- One capture chunk as MediaRecorder delivers it to ondataavailable:
the underlying audio samples of the buffer (normalized amplitudes, as
rationals), and the container-encoded bytes of event.data. The handler
in the source only ever looks at the encoded bytes. -/
structure CaptureChunk where
  samples : List ℚ
  encoded : List Nat

/-- mediaRecorder.ondataavailable (lines 324-334): when event.data.size
is positive, the chunk bytes are read as a base64 data URL and the
base64 text is passed to sendAudioToWebSocket, i.e. one
user_audio_chunk message is produced; an empty chunk produces nothing.
The sample values are never inspected. -/
def ondataavailable (c : CaptureChunk) : Option JsonValue :=
  if c.encoded.length > 0
  then some (.jobj [("user_audio_chunk", .jstr (base64Encode c.encoded))])
  else none

/-- Predicate from the words of the specification (not from the
source, which has no such check): a capture buffer counts as silent
when every sample has absolute value at most 0.01, stated as the
two-sided bound between -0.01 and 0.01. -/
def specSilentChunk (c : CaptureChunk) : Bool :=
  c.samples.all (fun q => decide (-(1 / 100) ≤ q ∧ q ≤ 1 / 100))

/-- The inbound ping frame with event id n and, optionally, a ping_ms
field. -/
def pingMsg (n : Nat) (pm : Option Nat) : JsonValue :=
  .jobj [("type", .jstr "ping"),
         ("ping_event", .jobj (("event_id", JsonValue.jnum n) ::
           (match pm with
            | some m => [("ping_ms", JsonValue.jnum m)]
            | none => [])))]

/-- The inbound audio frame carrying a base64 payload and an event id. -/
def audioMsg (b : String) (eid : Nat) : JsonValue :=
  .jobj [("type", .jstr "audio"),
         ("audio_event", .jobj [("audio_base_64", .jstr b), ("event_id", .jnum eid)])]

/-- The coordinator state at the moment a signed-URL fetch failure is
caught: handleStart set the loading flag, and simliClient.start()
already succeeded, so the renderer session is open. -/
def c2FailState : CoordState :=
  simliStart { initialState with isLoading := true }

/-- The same scenario a step later: the socket was created and errored
while connecting. -/
def c2ErrState : CoordState :=
  { c2FailState with websocket := some ⟨ReadyState.connecting, []⟩ }

/-- A capture chunk that is silent in the sense of the claim (every
sample within one hundredth of zero) yet has a nonempty encoded body,
as any container-encoded chunk does. -/
def c4SilentChunk : CaptureChunk :=
  ⟨[0, 1 / 200, -(1 / 200)], [26, 69, 223, 163]⟩

/-- stopMicrophoneRecording always ends with no recorder and no
stream, whatever state it starts from. -/
theorem stopMicrophoneRecording_eq (s : CoordState) :
    stopMicrophoneRecording s = { s with mediaRecorder := none, stream := none } := by
  rcases s with ⟨il, iav, err, ws, mr, st, so, sb, mq⟩
  rcases mr with _ | r
  · cases st <;> rfl
  · rcases r <;> cases st <;> simp [stopMicrophoneRecording]

/-- handleStop always produces the same fully torn down state over the
fields it writes. -/
theorem handleStop_eq (s : CoordState) :
    handleStop s = { s with isLoading := false, error := "", isAvatarVisible := false,
                            websocket := none, mediaRecorder := none, stream := none,
                            simliBuffer := [], simliOpen := false } := by
  rcases s with ⟨il, iav, err, ws, mr, st, so, sb, mq⟩
  cases ws <;> simp [handleStop, stopMicrophoneRecording_eq]

/-- The close callback performs exactly the handleStop teardown. -/
theorem websocketOnclose_eq (s : CoordState) :
    websocketOnclose s = handleStop s := by
  rw [websocketOnclose]
  rw [stopMicrophoneRecording_eq, handleStop_eq, handleStop_eq]

/-- Claim C1: the claim states that every successful protocol-open
event invokes capture setup from inside the open handler, with the
mono, 16 kHz, echo-cancellation and noise-suppression constraints. The
code contradicts this: the open handler makes no microphone request and
starts no recorder, and neither does the successful connect path, since
the one call site of setupMicrophoneRecording is commented out; the
constraint object of the dead setupMicrophoneRecording routine is
exactly the claimed one. -/
theorem c1_protocol_open_starts_no_capture (s : CoordState) :
    (websocketOnopen s).micRequests = s.micRequests ∧
    (websocketOnopen s).mediaRecorder = s.mediaRecorder ∧
    (websocketOnopen s).stream = s.stream ∧
    (connectToElevenLabsSuccess s).micRequests = s.micRequests ∧
    (connectToElevenLabsSuccess s).mediaRecorder = s.mediaRecorder ∧
    (setupMicrophoneRecording s).micRequests = s.micRequests ++ [micConstraints] ∧
    micConstraints = ⟨16000, 1, true, true⟩ := by
  rcases s with ⟨il, iav, err, ws, mr, st, so, sb, mq⟩
  cases ws <;>
    simp [websocketOnopen, connectToElevenLabsSuccess, setupMicrophoneRecording,
      micConstraints]

/-- Claim C2, counterexample: on a signed-URL fetch failure the catch
block of connectToElevenLabs records the error and clears the loading
flag but leaves the open renderer session open, unlike the
stop()-equivalent teardown the claim requires (handleStop would close
it); likewise the socket error handler leaves the socket ref in place. -/
theorem c2_counterexample :
    (connectCatch "TypeError: failed to fetch" c2FailState).simliOpen = true ∧
    (connectCatch "TypeError: failed to fetch" c2FailState).error =
      "Failed to connect: TypeError: failed to fetch" ∧
    (connectCatch "TypeError: failed to fetch" c2FailState).isLoading = false ∧
    (handleStop c2FailState).simliOpen = false ∧
    (websocketOnerror c2ErrState).websocket = some ⟨ReadyState.connecting, []⟩ ∧
    (websocketOnerror c2ErrState).simliOpen = true :=
  ⟨rfl, rfl, rfl, rfl, rfl, rfl⟩

/-- Claim C2, amended: every defined failure during start records a
user-visible error string and clears the loading flag, so the
coordinator does not remain loading; but none of the failure handlers
performs any teardown: socket, recorder, stream and renderer session
are left exactly as they were. -/
theorem c2_start_failures_record_error_without_teardown (e : String) (s : CoordState) :
    (connectCatch e s).error = "Failed to connect: " ++ e ∧
    (connectCatch e s).isLoading = false ∧
    (connectCatch e s).websocket = s.websocket ∧
    (connectCatch e s).simliOpen = s.simliOpen ∧
    (connectCatch e s).mediaRecorder = s.mediaRecorder ∧
    (connectCatch e s).stream = s.stream ∧
    (websocketOnerror s).error = "WebSocket connection failed" ∧
    (websocketOnerror s).isLoading = false ∧
    (websocketOnerror s).websocket = s.websocket ∧
    (websocketOnerror s).simliOpen = s.simliOpen ∧
    (handleStartCatch e s).error = "Error starting interaction: " ++ e ∧
    (handleStartCatch e s).isLoading = false ∧
    (handleStartCatch e s).simliOpen = s.simliOpen :=
  ⟨rfl, rfl, rfl, rfl, rfl, rfl, rfl, rfl, rfl, rfl, rfl, rfl, rfl⟩

/-- Claim C3, counterexample: the initiation message the source sends
has a single field and lacks the nested
conversation_initiation_client_data object the claim prescribes, so its
JSON shape differs from the claimed one. -/
theorem c3_counterexample :
    initMessage ≠ specInitMessage ∧
    jlookup "conversation_initiation_client_data" initMessage = none ∧
    jFieldCount initMessage = 1 ∧
    jFieldCount specInitMessage = 2 := by
  refine ⟨fun h => ?_, rfl, rfl, rfl⟩
  have h2 := congrArg jFieldCount h
  simp [initMessage, specInitMessage, jFieldCount] at h2

/-- Claim C3, amended: on every successful socket open the coordinator
immediately sends exactly one initiation message, namely the object
whose single field is type = conversation_initiation_client_data. -/
theorem c3_open_sends_one_init_message (s : CoordState) (ws : Socket)
    (hws : s.websocket = some ws) (hopen : ws.readyState = ReadyState.opened) :
    (websocketOnopen s).websocket = some { ws with sent := ws.sent ++ [initMessage] } := by
  simp [websocketOnopen, hws, sendMessage, hopen, Socket.sendRaw]

/-- Claim C3, witness: the open handler on a freshly opened socket with
an empty transmit log sends exactly the initiation message. -/
theorem c3_witness :
    (websocketOnopen { initialState with
        websocket := some ⟨ReadyState.opened, []⟩ }).websocket =
      some ⟨ReadyState.opened, [initMessage]⟩ :=
  c3_open_sends_one_init_message _ ⟨ReadyState.opened, []⟩ rfl rfl

/-- Claim C4, counterexample: the capture handler has no silence
detection; a chunk all of whose samples lie within the claimed
threshold still produces an outbound user_audio_chunk message, because
the only guard is a positive encoded size. -/
theorem c4_counterexample :
    specSilentChunk c4SilentChunk = true ∧
    ondataavailable c4SilentChunk =
      some (.jobj [("user_audio_chunk", .jstr (base64Encode [26, 69, 223, 163]))]) := by
  refine ⟨?_, rfl⟩
  simp only [specSilentChunk, c4SilentChunk, List.all_cons, List.all_nil,
    Bool.and_eq_true, decide_eq_true_eq]
  norm_num

/-- Claim C4, amended: the capture handler produces an outbound
user_audio_chunk message exactly when the encoded chunk size is
positive, and its output depends only on the encoded bytes, never on
the sample values. -/
theorem c4_send_guard_is_size_only :
    (∀ c : CaptureChunk, (ondataavailable c).isSome ↔ 0 < c.encoded.length) ∧
    (∀ c c2 : CaptureChunk, c.encoded = c2.encoded →
      ondataavailable c = ondataavailable c2) := by
  constructor
  · intro c
    unfold ondataavailable
    split <;> simp_all
  · intro c c2 h
    unfold ondataavailable
    rw [h]

/-- Claim C4, witness for the amended statement at concrete chunks. -/
theorem c4_witness :
    ((ondataavailable ⟨[1 / 2], [1, 2]⟩).isSome ↔ 0 < ([1, 2] : List Nat).length) ∧
    ondataavailable ⟨[1 / 2], [7]⟩ = ondataavailable ⟨[0], [7]⟩ :=
  ⟨c4_send_guard_is_size_only.1 ⟨[1 / 2], [1, 2]⟩,
   c4_send_guard_is_size_only.2 ⟨[1 / 2], [7]⟩ ⟨[0], [7]⟩ rfl⟩

/-- Claim C5: an attempted user_audio_chunk send while the socket is
not OPEN (or the socket ref is null) is a total no-op: the guarded send
never throws, nothing reaches the socket transmit log, and nothing is
queued anywhere. -/
theorem c5_audio_send_dropped_when_not_open (ws : Socket) (a : String)
    (h : ws.readyState ≠ ReadyState.opened) :
    sendAudioToWebSocket (some ws) a = some ws ∧
    sendAudioToWebSocket none a = none := by
  refine ⟨?_, rfl⟩
  simp [sendAudioToWebSocket, h]

/-- Claim C5, witness: a closing socket with an empty transmit log is
returned unchanged. -/
theorem c5_witness :
    sendAudioToWebSocket (some ⟨ReadyState.closing, []⟩) "QUJD" =
      some ⟨ReadyState.closing, []⟩ ∧
    sendAudioToWebSocket none "QUJD" = none :=
  c5_audio_send_dropped_when_not_open ⟨ReadyState.closing, []⟩ "QUJD" (by decide)

/-- Claim C6: an inbound ping with event id n schedules exactly one
pong carrying the same event id, delayed by ping_ms when present and by
0 otherwise, and the delayed reply send is a no-op on a socket that is
no longer open. -/
theorem c6_ping_schedules_one_pong (n : Nat) (pm : Option Nat) :
    handleData (pingMsg n pm) =
      .ok ⟨[(pm.getD 0, .jobj [("type", .jstr "pong"), ("event_id", .jnum n)])], []⟩ ∧
    ∀ ws : Socket, ws.readyState ≠ ReadyState.opened →
      sendMessage ws (.jobj [("type", .jstr "pong"), ("event_id", .jnum n)]) = ws := by
  constructor
  · cases pm <;> rfl
  · intro ws h
    simp [sendMessage, h]

/-- Claim C6, witness: the ping with event id 7 and ping_ms 50
schedules one pong with event id 7 after 50 milliseconds, and sending
that pong on an already closed socket changes nothing. -/
theorem c6_witness :
    handleData (pingMsg 7 (some 50)) =
      .ok ⟨[(50, .jobj [("type", .jstr "pong"), ("event_id", .jnum 7)])], []⟩ ∧
    sendMessage ⟨ReadyState.closed, []⟩
        (.jobj [("type", .jstr "pong"), ("event_id", .jnum 7)]) =
      ⟨ReadyState.closed, []⟩ :=
  ⟨(c6_ping_schedules_one_pong 7 (some 50)).1,
   (c6_ping_schedules_one_pong 7 (some 50)).2 ⟨ReadyState.closed, []⟩ (by decide)⟩

/-- Claim C7: an inbound audio frame makes exactly one sendAudioData
call to the renderer, carrying exactly the base64-decoded bytes of the
payload; on the payload AAA= the decoded bytes are two zero bytes. -/
theorem c7_audio_forwarded_once (b : String) (eid : Nat) :
    handleData (audioMsg b eid) = .ok ⟨[], [base64ToUint8Array b]⟩ ∧
    base64ToUint8Array "AAA=" = [0, 0] :=
  ⟨rfl, by decide⟩

/-- Claim C8: handleStop, from any state, leaves no socket, no
recorder, no stream, an empty renderer buffer and a closed renderer
session, and returns the visible flags to idle; it is idempotent, and
the socket close callback (which re-enters it) performs exactly the
same teardown, so calling stop twice, before the session ever became
active, or from within the close callback is safe. -/
theorem c8_stop_idempotent_reentrant (s : CoordState) :
    (handleStop s).websocket = none ∧
    (handleStop s).mediaRecorder = none ∧
    (handleStop s).stream = none ∧
    (handleStop s).simliBuffer = [] ∧
    (handleStop s).simliOpen = false ∧
    (handleStop s).isLoading = false ∧
    (handleStop s).isAvatarVisible = false ∧
    handleStop (handleStop s) = handleStop s ∧
    websocketOnclose s = handleStop s := by
  simp [handleStop_eq, websocketOnclose_eq]

/-- Claim C9, counterexample: an unparseable inbound frame is not
ignored without throwing; JSON.parse raises and the exception escapes
the handler, which has no try/catch. -/
theorem c9_counterexample :
    websocketOnmessage none = .error .parseError ∧
    websocketOnmessage none ≠ .ok ⟨[], []⟩ :=
  ⟨rfl, fun h => Except.noConfusion h⟩

/-- Claim C9, amended: an inbound frame that parses but carries an
unknown tag (or no string tag at all) is ignored: the handler neither
throws nor takes any protocol action; an unparseable frame, however,
makes the handler itself throw, though still with no protocol action or
state change. -/
theorem c9_unknown_tags_ignored (j : JsonValue) (h : hasUnknownTag j = true) :
    websocketOnmessage (some j) = .ok ⟨[], []⟩ := by
  show handleData j = .ok ⟨[], []⟩
  unfold handleData
  unfold hasUnknownTag at h
  rcases hg : getTypeField j with e | t
  · rw [hg] at h
    simp at h
  · rw [hg] at h
    rcases t with _ | t
    · simp
    · simp [knownTags] at h
      obtain ⟨h1, h2, h3, h4, h5⟩ := h
      simp [h1, h2, h3, h4, h5]

/-- Claim C9, witness: a parseable frame with the unknown tag
conversation_initiation_metadata is ignored without any action. -/
theorem c9_witness :
    websocketOnmessage
        (some (.jobj [("type", .jstr "conversation_initiation_metadata")])) =
      .ok ⟨[], []⟩ :=
  c9_unknown_tags_ignored _ rfl

/-- Claim C10: every run of handleStop resets the user-visible error
string to the empty string, and the socket close callback, which
re-enters handleStop, does the same, so an error recorded before a
remote close is erased by the ensuing teardown. -/
theorem c10_stop_clears_error_string (s : CoordState) :
    (handleStop s).error = "" ∧
    (websocketOnclose s).error = "" ∧
    (websocketOnclose (websocketOnerror s)).error = "" := by
  simp [handleStop_eq, websocketOnclose_eq]
